import Mathlib

/-!
Shallow embedding of `src/piChain/PaxosProtocol.py` (piChain consensus core).

Python objects are modelled as Lean structures; `None` becomes `Option.none`;
Python runtime errors (`TypeError`, `ValueError`, `AttributeError`) are modelled
explicitly by an error type, since several code paths of the source raise them.
Unbounded `while` loops over parent pointers take an explicit `fuel` argument;
exhausting fuel models non-termination of the Python loop (reachable only on a
cyclic parent chain).

Transactions are represented by their identity (a natural number): the source
compares `Transaction` objects by object identity, which the embedding maps to
distinct ids.
-/

/-- Runtime errors the Python source can raise. `nonTermination` is the fuel
marker for a parent-pointer walk that does not terminate. -/
inductive PyErr where
  | typeError
  | valueError
  | attributeError
  | nonTermination
deriving DecidableEq, Repr

deriving instance DecidableEq for Except

/-- `QUICK = 0` in the source. -/
def QUICK : Nat := 0

/-- `MEDIUM = 1` in the source. -/
def MEDIUM : Nat := 1

/-- `SLOW = 2` in the source. -/
def SLOW : Nat := 2

/-- A transaction, represented by its identity. -/
abbrev Txn := Nat

/-- Kernel-reducible digit count: `fuel` bounds the number of divisions. -/
def decLenAux : Nat → Nat → Nat
  | 0, _ => 1
  | fuel + 1, n => if n < 10 then 1 else decLenAux fuel (n / 10) + 1

/-- Number of decimal digits of a natural number (length of `str(n)`). -/
def decLen (n : Nat) : Nat := decLenAux n n

/-- `int(str(creator_id) + str(seq))`, the block id computed in `Block.__init__`. -/
def mkBlockId (c : Int) (s : Nat) : Int :=
  if c < 0 then -((-c) * (10 : Int) ^ decLen s + s) else c * (10 : Int) ^ decLen s + s

/-- A `Block` of the source. `depth` and `creator_state` start as `None`.
`parent_block_id` holds a block id (the source's `create_block` actually stores
the parent `Block` object where an id is expected; no claim verified here
inspects a created block's parent link, so the embedding records its id). -/
structure Block where
  creator_id : Int
  block_id : Int
  parent_block_id : Option Int
  txs : List Txn
  depth : Option Int
  creator_state : Option Nat
deriving DecidableEq, Repr

/-- `Block.__lt__`: compares depths first, then creator ids. A `None` depth on
either side makes the Python comparison raise `TypeError`. -/
def Block.lt (a b : Block) : Except PyErr Bool :=
  match a.depth, b.depth with
  | some da, some db =>
    if da < db then .ok true
    else if db < da then .ok false
    else .ok (a.creator_id < b.creator_id)
  | _, _ => .error .typeError

/-- Python `x < y` on two possibly-`None` block variables.
`None < _` raises `TypeError`; `Block < None` evaluates `other.depth` inside
`__lt__` and raises `AttributeError`. -/
def pyLtOpt (a b : Option Block) : Except PyErr Bool :=
  match a, b with
  | some ab, some bb => Block.lt ab bb
  | some _, none => .error .attributeError
  | none, _ => .error .typeError

/-- `GENESIS = Block(-1, None, [])`: creator `-1`, sequence `0`, so
`block_id = int("-1" + "0") = -10`; its `depth` is never assigned and stays `None`. -/
def GENESIS : Block :=
  { creator_id := -1, block_id := mkBlockId (-1) 0, parent_block_id := none,
    txs := [], depth := none, creator_state := none }

/-- Message tags of the source. -/
inductive MsgType where
  | TRY
  | TRY_OK
  | PROPOSE
  | PROPOSE_ACK
  | COMMIT
deriving DecidableEq, Repr

/-- A `Message`: all content fields start as `None` and are assigned per type. -/
structure Message where
  msg_type : MsgType
  request_seq : Int
  new_block : Option Block := none
  prop_block : Option Block := none
  supp_block : Option Block := none
  com_block : Option Block := none
  last_committed_block : Option Block := none
deriving DecidableEq, Repr

/-- The `Blocktree`. `nodes` is the id-to-block dictionary (only ever populated
with GENESIS by `__init__`; no other code path inserts into it). `committed_block`
is an `Option` because `commit(None)` can assign `None` to it. -/
structure Blocktree where
  head_block : Block
  committed_block : Option Block
  nodes : List (Int × Block)
  blocks : List Block
deriving DecidableEq, Repr

/-- `self.nodes.get(key)`. -/
def nodesGet (nodes : List (Int × Block)) (key : Int) : Option Block :=
  (nodes.find? (fun p => p.1 == key)).map (fun p => p.2)

/-- `Blocktree.__init__`. -/
def Blocktree.init : Blocktree :=
  { head_block := GENESIS, committed_block := some GENESIS,
    nodes := [(GENESIS.block_id, GENESIS)], blocks := [] }

/-- The `while b.parent_block_id is not None` loop of `Blocktree.ancestor`.
`b = None` (a failed `nodes.get`) raises `AttributeError` on the next condition
check, as does `block_a = None` when `block_a.block_id` is read in the body. -/
def ancestorLoop (nodes : List (Int × Block)) (a : Option Block) :
    Option Block → Nat → Except PyErr Bool
  | none, _ => .error .attributeError
  | some b, fuel =>
    match b.parent_block_id with
    | none => .ok false
    | some pid =>
      match a with
      | none => .error .attributeError
      | some ab =>
        if ab.block_id == pid then .ok true
        else
          match fuel with
          | 0 => .error .nonTermination
          | f + 1 => ancestorLoop nodes a (nodesGet nodes pid) f

/-- `Blocktree.ancestor(block_a, block_b)`: raises `ValueError` if `block_b` is
not in `nodes`, then walks `block_b`'s parent chain looking for `block_a`'s id. -/
def Blocktree.ancestor (t : Blocktree) (a b : Option Block) (fuel : Nat) :
    Except PyErr Bool :=
  match b with
  | none => .error .attributeError
  | some bb =>
    if t.nodes.any (fun p => p.1 == bb.block_id) then
      ancestorLoop t.nodes a (some bb) fuel
    else .error .valueError

/-- `Blocktree.move_to_block(target)`: the body is an empty TODO stub in the
source, so the call mutates nothing. -/
def Blocktree.move_to_block (t : Blocktree) (_target : Option Block) : Blocktree := t

/-- `Blocktree.commit(block)`: commits unless `block` is an ancestor of the
current `committed_block`. -/
def Blocktree.commit (t : Blocktree) (blk : Option Block) (fuel : Nat) :
    Except PyErr Blocktree := do
  let anc ← t.ancestor blk t.committed_block fuel
  if anc then pure t
  else pure (Blocktree.move_to_block { t with committed_block := blk } blk)

/-- `Blocktree.depth(block)`: a TODO stub that returns `0`. -/
def Blocktree.depth (_t : Blocktree) (_b : Block) : Int := 0

/-- `Blocktree.valid_block(block)`: assigns `block.depth ← depth(block)` (the
stub value `0`) and returns `False` iff `block < head_block`; the
committed-ancestor check of its docstring is an unimplemented TODO. Returns the
mutated block together with the boolean. -/
def Blocktree.valid_block (t : Blocktree) (b : Block) :
    Except PyErr (Block × Bool) := do
  let b' := { b with depth := some (t.depth b) }
  let lt ← Block.lt b' t.head_block
  if lt then pure (b', false) else pure (b', true)

/-- The `Node` state of the source (`Node.__init__`). Timing state
(`slow_timeout`, the patience value) is real-valued and randomized and carries
no protocol content, so it is not part of the embedded state. -/
structure Node where
  id : Int
  state : Nat
  n : Int
  known_txs : List Txn
  new_txs : List Txn
  blocktree : Blocktree
  oldest_txn : Option Txn
  s_max_block : Option Block
  s_prop_block : Option Block
  s_supp_block : Option Block
  c_new_block : Option Block
  c_com_block : Option Block
  c_request_seq : Int
  c_votes : Int
  c_prop_block : Option Block
  c_supp_block : Option Block
  commit_running : Bool
deriving DecidableEq, Repr

/-- `Node.__init__(n, factory)` for a node with the given id. -/
def Node.init (id : Int) (n : Int) : Node :=
  { id := id, state := SLOW, n := n, known_txs := [], new_txs := [],
    blocktree := Blocktree.init, oldest_txn := none,
    s_max_block := some GENESIS, s_prop_block := none, s_supp_block := none,
    c_new_block := none, c_com_block := none, c_request_seq := 0, c_votes := 0,
    c_prop_block := none, c_supp_block := none, commit_running := false }

/-- Observable outputs of a handler: `broadcast` of a message or block, and
`respond` of a message to the triggering peer. -/
inductive OutMsg where
  | broadcastMsg (m : Message)
  | broadcastBlock (b : Block)
  | respondMsg (m : Message)
deriving DecidableEq, Repr

/-- Result of running one handler: the node state after all mutations that were
executed, the outputs emitted before any raise, and the error if one occurred. -/
structure Res where
  node : Node
  out : List OutMsg
  err : Option PyErr
deriving DecidableEq, Repr

/-- The guard of line 201 of the source:
`message.supp_block and self.c_supp_block and self.c_supp_block < message.supp_block`.
Python `and` short-circuits on a `None` operand, so the (possibly raising)
comparison runs only when both blocks are present. -/
def suppCond (msupp csupp : Option Block) : Except PyErr Bool :=
  match msupp, csupp with
  | none, _ => .ok false
  | some _, none => .ok false
  | some ms, some cs => Block.lt cs ms

/-- `Node.receive_message(message)`. The majority test `c_votes > n / 2` uses
Python float division; for integers it is equivalent to `2 * c_votes > n`,
which is how it is written here. -/
def Node.receive_message (nd : Node) (m : Message) (fuel : Nat) : Res :=
  match m.msg_type with
  | .TRY =>
    match nd.blocktree.commit m.last_committed_block fuel with
    | .error e => ⟨nd, [], some e⟩
    | .ok bt =>
      let nd := { nd with blocktree := bt }
      match pyLtOpt nd.s_max_block m.new_block with
      | .error e => ⟨nd, [], some e⟩
      | .ok true =>
        let nd := { nd with s_max_block := m.new_block }
        let try_ok : Message :=
          { msg_type := .TRY_OK, request_seq := m.request_seq,
            prop_block := nd.s_prop_block, supp_block := nd.s_supp_block }
        ⟨nd, [.respondMsg try_ok], none⟩
      | .ok false => ⟨nd, [], none⟩
  | .TRY_OK =>
    if m.request_seq != nd.c_request_seq then ⟨nd, [], none⟩
    else
      let nd := { nd with c_votes := nd.c_votes + 1 }
      if (2 : Int) * nd.c_votes > nd.n then
        let nd := { nd with c_votes := 0, c_request_seq := nd.c_request_seq + 1 }
        let nd := { nd with c_com_block := nd.c_new_block }
        match suppCond m.supp_block nd.c_supp_block with
        | .error e => ⟨nd, [], some e⟩
        | .ok adopt =>
          let nd :=
            if adopt then
              { nd with c_supp_block := m.supp_block, c_prop_block := m.prop_block }
            else nd
          let nd :=
            if nd.c_prop_block.isSome then { nd with c_com_block := nd.c_prop_block }
            else nd
          let propose : Message :=
            { msg_type := .PROPOSE, request_seq := nd.c_request_seq,
              com_block := nd.c_com_block, new_block := nd.c_new_block }
          ⟨nd, [.broadcastMsg propose], none⟩
      else ⟨nd, [], none⟩
  | .PROPOSE =>
    match m.new_block with
    | none => ⟨nd, [], some .attributeError⟩
    | some nb =>
      match nd.s_max_block with
      | none => ⟨nd, [], some .attributeError⟩
      | some smax =>
        if nb.depth == smax.depth then
          let nd := { nd with s_prop_block := m.com_block, s_supp_block := m.new_block }
          let propose_ack : Message :=
            { msg_type := .PROPOSE_ACK, request_seq := m.request_seq,
              com_block := m.com_block }
          ⟨nd, [.respondMsg propose_ack], none⟩
        else ⟨nd, [], none⟩
  | .PROPOSE_ACK =>
    if m.request_seq != nd.c_request_seq then ⟨nd, [], none⟩
    else
      let nd := { nd with c_votes := nd.c_votes + 1 }
      if (2 : Int) * nd.c_votes > nd.n then
        let nd := { nd with c_request_seq := nd.c_request_seq + 1 }
        let commitMsg : Message :=
          { msg_type := .COMMIT, request_seq := nd.c_request_seq,
            com_block := m.com_block }
        let nd := { nd with commit_running := false }
        ⟨nd, [.broadcastMsg commitMsg], none⟩
      else ⟨nd, [], none⟩
  | .COMMIT =>
    match nd.blocktree.commit m.com_block fuel with
    | .error e => ⟨nd, [], some e⟩
    | .ok bt =>
      ⟨{ nd with blocktree := bt, s_supp_block := none, s_prop_block := none,
                 s_max_block := none }, [], none⟩

/-- `Node.receive_transaction(txn)`. The arming line
`deferLater(reactor, self.get_patience(), self.timeout_over(), txn)` evaluates
`self.timeout_over()` with its required `txn` argument missing, which raises
`TypeError` while the arguments of `deferLater` are being built; the mutations
performed before that line are kept. -/
def Node.receive_transaction (nd : Node) (txn : Txn) : Res :=
  if nd.known_txs.contains txn then ⟨nd, [], none⟩
  else
    let nd := { nd with known_txs := txn :: nd.known_txs,
                        new_txs := nd.new_txs ++ [txn] }
    if nd.new_txs.length == 1 then
      let nd := { nd with oldest_txn := some txn }
      ⟨nd, [], some .typeError⟩
    else ⟨nd, [], none⟩

/-- `Node.create_block()`. `seq` is the value drawn from the global
`Block.new_seq` counter, passed explicitly. Returns the block and the mutated
node. -/
def Node.create_block (nd : Node) (seq : Nat) : Block × Node :=
  let b : Block :=
    { creator_id := nd.id, block_id := mkBlockId nd.id seq,
      parent_block_id := some nd.blocktree.head_block.block_id,
      txs := nd.new_txs, depth := none, creator_state := none }
  let b := { b with depth := some (nd.blocktree.depth b) }
  let nd := { nd with new_txs := [] }
  let nd := { nd with blocktree :=
    { nd.blocktree with blocks := b :: nd.blocktree.blocks } }
  let nd := { nd with state := max QUICK (nd.state - 1) }
  let b := { b with creator_state := some nd.state }
  (b, nd)

/-- `Node.timeout_over(txn)`. The TRY message is created with only
`last_committed_block` assigned; its `new_block` field keeps the constructor
default `None`, and none of `c_new_block`, `c_prop_block`, `c_supp_block` is
assigned anywhere in this handler. -/
def Node.timeout_over (nd : Node) (txn : Txn) (seq : Nat) : Res :=
  if nd.new_txs.contains txn then
    let (b, nd) := nd.create_block seq
    let nd := { nd with blocktree := nd.blocktree.move_to_block (some b) }
    if nd.state == QUICK && !nd.commit_running then
      let nd := { nd with commit_running := true, c_votes := 0,
                          c_request_seq := nd.c_request_seq + 1 }
      let try_msg : Message :=
        { msg_type := .TRY, request_seq := nd.c_request_seq,
          last_committed_block := nd.blocktree.committed_block }
      ⟨nd, [.broadcastBlock b, .broadcastMsg try_msg], none⟩
    else ⟨nd, [.broadcastBlock b], none⟩
  else ⟨nd, [], none⟩

/-- Deliver a list of messages to a node in order, collecting all outputs.
Each delivery is a separate transport callback: an exception raised inside one
handler is caught by the event loop and does not prevent later deliveries, so
the fold continues from the mutated state. -/
def runMsgs (nd : Node) (fuel : Nat) : List Message → Node × List OutMsg
  | [] => (nd, [])
  | m :: ms =>
    let r := nd.receive_message m fuel
    let rest := runMsgs r.node fuel ms
    (rest.1, r.out ++ rest.2)

/-! ### Concrete states used by counterexamples and witnesses -/

/-- A depth-1 child of GENESIS. -/
def bChild : Block :=
  { creator_id := 0, block_id := 1, parent_block_id := some GENESIS.block_id,
    txs := [], depth := some 1, creator_state := none }

/-- A blocktree whose `nodes` map holds GENESIS and `bChild`, freshly
initialized pointers. -/
def treeChild : Blocktree :=
  { head_block := GENESIS, committed_block := some GENESIS,
    nodes := [(GENESIS.block_id, GENESIS), (bChild.block_id, bChild)],
    blocks := [] }

/-- The proposer's own new block in the compromise scenario. -/
def bNew : Block :=
  { creator_id := 0, block_id := 2, parent_block_id := some GENESIS.block_id,
    txs := [5], depth := some 1, creator_state := none }

/-- The prior block reported as `supp_block` by the quorum, strictly deeper
than an unset support block. -/
def bPrior : Block :=
  { creator_id := 2, block_id := 21, parent_block_id := some GENESIS.block_id,
    txs := [6], depth := some 1, creator_state := none }

/-- A quick proposer mid-round: request 5 open, one vote short of majority,
no support block adopted yet. -/
def ndC1 : Node :=
  { Node.init 0 3 with
    state := QUICK, c_request_seq := 5, c_votes := 1,
    c_new_block := some bNew, commit_running := true }

/-- The TRY_OK reply carrying `supp_block = bPrior`. -/
def mC1 : Message :=
  { msg_type := .TRY_OK, request_seq := 5, supp_block := some bPrior,
    prop_block := some bPrior }

/-- A quick node with one pending transaction, ready for its patience timer
to fire. -/
def ndC6 : Node :=
  { Node.init 0 3 with
    state := QUICK, known_txs := [7], new_txs := [7],
    oldest_txn := some 7 }

/-- The block `ndC6.timeout_over 7 1` creates: `mkBlockId 0 1 = 1`, parent is
the head (GENESIS), depth is the stub value `0`, creator stays QUICK. -/
def bC6 : Block :=
  { creator_id := 0, block_id := 1, parent_block_id := some GENESIS.block_id,
    txs := [7], depth := some 0, creator_state := some QUICK }

/-- A node acting as server with stored proposal state, about to receive a
COMMIT. -/
def ndC7 : Node :=
  { Node.init 1 3 with s_prop_block := some bChild, s_supp_block := some bChild }

/-- COMMIT message for the already-known GENESIS block. -/
def mCommitGen : Message :=
  { msg_type := .COMMIT, request_seq := 1, com_block := some GENESIS }

/-- The TRY that follows the COMMIT. -/
def mTryAfter : Message :=
  { msg_type := .TRY, request_seq := 2, new_block := some bChild,
    last_committed_block := some GENESIS }

/-- COMMIT message carrying a block deeper than the (never-moving) head. -/
def mCommitChild : Message :=
  { msg_type := .COMMIT, request_seq := 1, com_block := some bChild }

/-- Chain for the move_to_block round trip: GENESIS ← bMid ← bTip. -/
def bMid : Block :=
  { creator_id := 0, block_id := 1, parent_block_id := some GENESIS.block_id,
    txs := [11], depth := some 1, creator_state := none }

/-- Tip of the round-trip chain. -/
def bTip : Block :=
  { creator_id := 0, block_id := 2, parent_block_id := some bMid.block_id,
    txs := [12], depth := some 2, creator_state := none }

/-- Tree for the round trip, head at `bTip`. -/
def treeRT : Blocktree :=
  { head_block := bTip, committed_block := some GENESIS,
    nodes := [(GENESIS.block_id, GENESIS), (bMid.block_id, bMid),
              (bTip.block_id, bTip)],
    blocks := [] }

/-- Three TRY_OK replies for round 0, as three distinct peers would send them. -/
def mOkA : Message := { msg_type := .TRY_OK, request_seq := 0 }

/-- Second reply, differing payload. -/
def mOkB : Message :=
  { msg_type := .TRY_OK, request_seq := 0, prop_block := some bPrior }

/-- Third reply, differing payload. -/
def mOkC : Message :=
  { msg_type := .TRY_OK, request_seq := 0, prop_block := some bNew }

/-- Fresh proposer for the vote-counting witness. -/
def ndC10 : Node := { Node.init 0 3 with c_new_block := some bNew }

/-! ## Theorems -/

/-- With no support block stored on the client, the adoption guard of the
TRY_OK handler is false whatever the message carries: Python's `and`
short-circuits on the `None` in `self.c_supp_block`. -/
theorem suppCond_none (ms : Option Block) : suppCond ms none = .ok false := by
  cases ms <;> rfl

/-- A TRY_OK or PROPOSE_ACK whose `request_seq` differs from `c_request_seq`
is dropped: same state, no output, no error. Shared helper. -/
theorem stale_drop (nd : Node) (m : Message) (f : Nat)
    (hty : m.msg_type = MsgType.TRY_OK ∨ m.msg_type = MsgType.PROPOSE_ACK)
    (hseq : m.request_seq ≠ nd.c_request_seq) :
    nd.receive_message m f = ⟨nd, [], none⟩ := by
  rcases hty with h | h <;>
    simp [Node.receive_message, h, bne_iff_ne, hseq]

/-- C8: for every TRY_OK or PROPOSE_ACK message whose `request_seq` differs
from `c_request_seq`, `receive_message` leaves the entire node state unchanged,
sends nothing, and raises nothing. -/
theorem c8_stale_reply_dropped (nd : Node) (m : Message) (f : Nat)
    (hty : m.msg_type = MsgType.TRY_OK ∨ m.msg_type = MsgType.PROPOSE_ACK)
    (hseq : m.request_seq ≠ nd.c_request_seq) :
    nd.receive_message m f = ⟨nd, [], none⟩ :=
  stale_drop nd m f hty hseq

/-- Witness for C8: a fresh node (round counter 0) drops a TRY_OK stamped with
round 4. -/
theorem c8_witness :
    (Node.init 0 3).receive_message { msg_type := .TRY_OK, request_seq := 4 } 10 =
      ⟨Node.init 0 3, [], none⟩ :=
  c8_stale_reply_dropped (Node.init 0 3) { msg_type := .TRY_OK, request_seq := 4 } 10
    (Or.inl rfl) (by decide)

/-- C9: `receive_transaction` on a fresh transaction with an empty queue does
record the transaction (`known_txs`, `new_txs`, `oldest_txn`) but then raises
`TypeError` instead of completing: the arming line evaluates
`self.timeout_over()` with its required argument missing rather than passing
the callable to `deferLater`. -/
theorem c9_receive_transaction_raises :
    ((Node.init 0 3).receive_transaction 42).node.known_txs = [42] ∧
    ((Node.init 0 3).receive_transaction 42).node.new_txs = [42] ∧
    ((Node.init 0 3).receive_transaction 42).node.oldest_txn = some 42 ∧
    ((Node.init 0 3).receive_transaction 42).out = [] ∧
    ((Node.init 0 3).receive_transaction 42).err = some PyErr.typeError := by
  decide

/-- C2: `valid_block` never returns a boolean while the head block's depth is
unset (which is the only reachable situation: `head_block` is assigned nowhere
outside `__init__`, and GENESIS's depth stays `None`): it sets the candidate's
depth to the stub value `0` and then raises `TypeError` comparing it with the
head's `None` depth, never reaching any committed-ancestor check. -/
theorem c2_valid_block_raises (t : Blocktree) (b : Block)
    (h : t.head_block.depth = none) :
    t.valid_block b = .error PyErr.typeError := by
  simp [Blocktree.valid_block, Blocktree.depth, Block.lt, h, bind, Except.bind]

/-- Witness for C2: the freshly initialized tree rejects nothing and accepts
nothing — it raises on a depth-1 child of GENESIS. -/
theorem c2_witness : Blocktree.init.valid_block bChild = .error PyErr.typeError :=
  c2_valid_block_raises Blocktree.init bChild (by decide)

/-- C4: a COMMIT for a child of GENESIS completes the handler normally, yet
leaves `committed_block = bChild` while `head_block` is still GENESIS
(`move_to_block` is an empty stub), so `committed_block` is neither an
ancestor of the head nor equal to it: the claimed invariant is violated in a
reachable post-handler state. -/
theorem c4_invariant_violated :
    ((Node.init 2 3).receive_message mCommitChild 10).err = none ∧
    ((Node.init 2 3).receive_message mCommitChild 10).node.blocktree.committed_block
      = some bChild ∧
    ((Node.init 2 3).receive_message mCommitChild 10).node.blocktree.head_block
      = GENESIS ∧
    (((Node.init 2 3).receive_message mCommitChild 10).node.blocktree.ancestor
      (some bChild) (some GENESIS) 10) = .ok false ∧
    some bChild ≠
      some ((Node.init 2 3).receive_message mCommitChild 10).node.blocktree.head_block := by
  decide

/-- C6: when a QUICK node's timer fires it does set `commit_running`, reset
`c_votes`, and bump `c_request_seq`, but the broadcast TRY carries
`new_block = None` (the field is never assigned) and none of `c_new_block`,
`c_prop_block`, `c_supp_block` is touched — in particular `c_new_block` is not
set to the created block `bC6`. -/
theorem c6_try_broadcast_incomplete :
    (ndC6.timeout_over 7 1).out =
      [OutMsg.broadcastBlock bC6,
       OutMsg.broadcastMsg { msg_type := .TRY, request_seq := 1, new_block := none,
                             last_committed_block := some GENESIS }] ∧
    (ndC6.timeout_over 7 1).node.commit_running = true ∧
    (ndC6.timeout_over 7 1).node.c_votes = 0 ∧
    (ndC6.timeout_over 7 1).node.c_request_seq = 1 ∧
    (ndC6.timeout_over 7 1).node.c_new_block = none ∧
    (ndC6.timeout_over 7 1).node.c_new_block ≠ some bC6 ∧
    (ndC6.timeout_over 7 1).node.c_prop_block = none ∧
    (ndC6.timeout_over 7 1).node.c_supp_block = none ∧
    (ndC6.timeout_over 7 1).err = none := by
  decide

/-- C7: handling COMMIT does commit `com_block` and reset `s_prop_block` and
`s_supp_block`, but it resets `s_max_block` to `None` — not to GENESIS, its
value at construction — so the very next TRY raises `TypeError` at
`s_max_block < message.new_block`. -/
theorem c7_commit_resets_smax_to_none :
    ((ndC7.receive_message mCommitGen 10).node.s_max_block = none) ∧
    ((ndC7.receive_message mCommitGen 10).node.s_max_block ≠ some GENESIS) ∧
    ((ndC7.receive_message mCommitGen 10).node.s_prop_block = none) ∧
    ((ndC7.receive_message mCommitGen 10).node.s_supp_block = none) ∧
    ((ndC7.receive_message mCommitGen 10).node.blocktree.committed_block
      = some GENESIS) ∧
    (((ndC7.receive_message mCommitGen 10).node.receive_message mTryAfter 10).err
      = some PyErr.typeError) := by
  decide

/-- C1: a TRY_OK with `request_seq = c_request_seq` carrying
`supp_block = bPrior` (depth 1, strictly deeper than the unset ⊥) arrives at
the majority-crossing vote, yet the handler adopts nothing — the guard
`message.supp_block and self.c_supp_block and ...` is false because
`c_supp_block` is `None` — and the broadcast PROPOSE carries
`com_block = bNew` (the client's own `c_new_block`), not `bPrior`. -/
theorem c1_no_adoption_from_bottom :
    ((ndC1.receive_message mC1 10).node.c_supp_block = none) ∧
    ((ndC1.receive_message mC1 10).node.c_prop_block = none) ∧
    ((ndC1.receive_message mC1 10).node.c_com_block = some bNew) ∧
    ((ndC1.receive_message mC1 10).out =
      [OutMsg.broadcastMsg { msg_type := .PROPOSE, request_seq := 6,
                             com_block := some bNew, new_block := some bNew }]) ∧
    bNew ≠ bPrior := by
  decide

/-- The claim C3 fails on the code: here `committed_block` (GENESIS) IS an
ancestor of `bChild`, so per the claim `commit(bChild)` must leave the tree
unchanged — but the source tests ancestry in the opposite direction
(`ancestor(block, committed_block)`) and therefore commits. -/
theorem c3_cex :
    treeChild.ancestor treeChild.committed_block (some bChild) 10 = .ok true ∧
    treeChild.commit (some bChild) 10 ≠ .ok treeChild := by
  decide

/-- C3 (amended): `commit(b)` sets `committed_block ← b` and invokes
`move_to_block(b)` exactly when `b` is NOT an ancestor of `committed_block`
(the argument order of the source's `ancestor(block, committed_block)` test);
when `b` is such an ancestor, the tree is left unchanged. -/
theorem c3_commit_guard (t : Blocktree) (b : Block) (f : Nat) :
    (t.ancestor (some b) t.committed_block f = .ok true →
      t.commit (some b) f = .ok t) ∧
    (t.ancestor (some b) t.committed_block f = .ok false →
      t.commit (some b) f =
        .ok (Blocktree.move_to_block { t with committed_block := some b }
              (some b))) := by
  constructor <;> intro h <;>
    simp [Blocktree.commit, h, bind, Except.bind, pure, Except.pure]

/-- Witness for C3: committing a fresh child of GENESIS (not an ancestor of
the committed block) advances `committed_block` and routes through
`move_to_block`. -/
theorem c3_witness :
    treeChild.ancestor (some bChild) treeChild.committed_block 10 = .ok false ∧
    treeChild.commit (some bChild) 10 =
      .ok (Blocktree.move_to_block { treeChild with committed_block := some bChild }
            (some bChild)) :=
  ⟨by decide, (c3_commit_guard treeChild bChild 10).2 (by decide)⟩

/-- Closed form of one TRY_OK delivery with matching `request_seq` while no
support block is stored: the vote is counted; on crossing the majority the
round advances and a PROPOSE is broadcast, independently of anything else the
message carries. -/
theorem tryok_step (nd : Node) (m : Message) (f : Nat)
    (hs : nd.c_supp_block = none) (hty : m.msg_type = MsgType.TRY_OK)
    (hseq : m.request_seq = nd.c_request_seq) :
    nd.receive_message m f =
      if (2 : Int) * (nd.c_votes + 1) > nd.n then
        ⟨{ nd with
            c_votes := 0, c_request_seq := nd.c_request_seq + 1,
            c_com_block := if nd.c_prop_block.isSome then nd.c_prop_block
                           else nd.c_new_block },
          [OutMsg.broadcastMsg
            { msg_type := MsgType.PROPOSE, request_seq := nd.c_request_seq + 1,
              com_block := if nd.c_prop_block.isSome then nd.c_prop_block
                           else nd.c_new_block,
              new_block := nd.c_new_block }], none⟩
      else ⟨{ nd with c_votes := nd.c_votes + 1 }, [], none⟩ := by
  by_cases hcr : (2 : Int) * (nd.c_votes + 1) > nd.n
  · simp only [Node.receive_message, hty, hseq, bne_self_eq_false, Bool.false_eq_true,
      if_false, hcr, if_true, hs, suppCond_none, if_pos]
    by_cases hp : nd.c_prop_block.isSome <;> simp [hp, hcr]
  · simp only [Node.receive_message, hty, hseq, bne_self_eq_false, Bool.false_eq_true,
      if_false]
    simp [hcr]

/-- C5: the round trip fails on the code. `move_to_block` is an empty TODO
stub that mutates nothing, although its own docstring promises to change to
the target as the new head and to re-queue the transactions that leave the
path. On the chain GENESIS ← bMid ← bTip with head at bTip, calling
`move_to_block(bTip)` and then `move_to_block(bMid)` returns the tree exactly
as it was: the head stays `bTip` instead of moving to `bMid`, and no state the
method can reach — in particular no `new_txs` queue — is touched, so the queue
cannot end up holding the path transaction `12` carried by `bTip`. -/
theorem c5_move_roundtrip_noop :
    (treeRT.move_to_block (some bTip)).move_to_block (some bMid) = treeRT ∧
    ((treeRT.move_to_block (some bTip)).move_to_block (some bMid)).head_block
      = bTip ∧
    bMid ≠ bTip ∧
    bTip.txs = [12] := by
  decide

/-- Delivering any list of TRY_OK replies all stamped with round `r` is
indistinguishable from delivering the same number of copies of any single such
reply, as long as no support block is stored: the handler consults nothing
about the sender or the payload. -/
theorem runMsgs_dup_eq (r : Int) (m0 : Message)
    (hty0 : m0.msg_type = MsgType.TRY_OK) (hq0 : m0.request_seq = r) :
    ∀ (ms : List Message) (nd : Node) (f : Nat), nd.c_supp_block = none →
      (∀ m ∈ ms, m.msg_type = MsgType.TRY_OK ∧ m.request_seq = r) →
      runMsgs nd f ms = runMsgs nd f (List.replicate ms.length m0) := by
  intro ms
  induction ms with
  | nil => intro nd f _ _; rfl
  | cons m ms ih =>
    intro nd f hs hall
    have hm := hall m (by simp)
    have htail : ∀ m' ∈ ms, m'.msg_type = MsgType.TRY_OK ∧ m'.request_seq = r :=
      fun m' hm' => hall m' (by simp [hm'])
    by_cases hr : nd.c_request_seq = r
    · have e1 := tryok_step nd m f hs hm.1 (hm.2.trans hr.symm)
      have e0 := tryok_step nd m0 f hs hty0 (hq0.trans hr.symm)
      have hpres : ((if (2 : Int) * (nd.c_votes + 1) > nd.n then
          (⟨{ nd with
              c_votes := 0, c_request_seq := nd.c_request_seq + 1,
              c_com_block := if nd.c_prop_block.isSome then nd.c_prop_block
                             else nd.c_new_block },
            [OutMsg.broadcastMsg
              { msg_type := MsgType.PROPOSE, request_seq := nd.c_request_seq + 1,
                com_block := if nd.c_prop_block.isSome then nd.c_prop_block
                             else nd.c_new_block,
                new_block := nd.c_new_block }], none⟩ : Res)
        else ⟨{ nd with c_votes := nd.c_votes + 1 }, [], none⟩).node.c_supp_block)
          = none := by
        split <;> simpa using hs
      simp only [runMsgs, List.length_cons, List.replicate_succ]
      rw [e1, e0]
      rw [ih _ f hpres htail]
    · have hne : m.request_seq ≠ nd.c_request_seq := fun hc => hr (hc ▸ hm.2)
      have hne0 : m0.request_seq ≠ nd.c_request_seq := fun hc => hr (hc ▸ hq0)
      simp only [runMsgs, List.length_cons, List.replicate_succ]
      rw [stale_drop nd m f (Or.inl hm.1) hne,
          stale_drop nd m0 f (Or.inl hty0) hne0]
      rw [ih _ f hs htail]

/-- Enough matching TRY_OK replies always cross the majority: if the votes so
far have not crossed `n / 2` and the pending replies would push the count past
it, some PROPOSE gets broadcast during their delivery. -/
theorem runMsgs_crosses :
    ∀ (ms : List Message) (nd : Node) (f : Nat), nd.c_supp_block = none →
      (∀ m ∈ ms, m.msg_type = MsgType.TRY_OK ∧ m.request_seq = nd.c_request_seq) →
      (2 : Int) * nd.c_votes ≤ nd.n →
      (2 : Int) * (nd.c_votes + ms.length) > nd.n →
      ∃ p, OutMsg.broadcastMsg p ∈ (runMsgs nd f ms).2 ∧
        p.msg_type = MsgType.PROPOSE := by
  intro ms
  induction ms with
  | nil =>
    intro nd f _ _ hle hgt
    simp only [List.length_nil, Nat.cast_zero, add_zero] at hgt
    exact absurd hgt (not_lt.mpr hle)
  | cons m ms ih =>
    intro nd f hs hall hle hgt
    have hm := hall m (by simp)
    have e1 := tryok_step nd m f hs hm.1 hm.2
    by_cases hcr : (2 : Int) * (nd.c_votes + 1) > nd.n
    · refine ⟨{ msg_type := MsgType.PROPOSE, request_seq := nd.c_request_seq + 1,
                com_block := if nd.c_prop_block.isSome then nd.c_prop_block
                             else nd.c_new_block,
                new_block := nd.c_new_block }, ?_, rfl⟩
      simp only [runMsgs]
      rw [e1, if_pos hcr]
      simp
    · have hstep : nd.receive_message m f =
          ⟨{ nd with c_votes := nd.c_votes + 1 }, [], none⟩ := by
        rw [e1]; exact if_neg hcr
      simp only [runMsgs]
      rw [hstep]
      have hrec := ih { nd with c_votes := nd.c_votes + 1 } f (by simpa using hs)
        (fun m' hm' => by simpa using hall m' (List.mem_cons_of_mem _ hm'))
        (by simpa using not_lt.mp hcr)
        (by
          have hlen : ((m :: ms).length : Int) = (ms.length : Int) + 1 := by
            simp
          have := hgt
          rw [hlen] at this
          simpa [add_comm, add_left_comm, add_assoc] using this)
      simpa using hrec

/-- C10: votes are counted per message with no record of the sender. Any list
of TRY_OK replies stamped with the current round acts only through its length
— repeated deliveries of one reply are indistinguishable from distinct peers'
replies — and once the count would exceed `n / 2`, a PROPOSE is broadcast;
likewise every round-matching PROPOSE_ACK increments `c_votes` by exactly one
whatever its origin. -/
theorem c10_votes_per_message (nd : Node) (ms : List Message) (m0 : Message)
    (f : Nat)
    (hs : nd.c_supp_block = none)
    (hall : ∀ m ∈ ms, m.msg_type = MsgType.TRY_OK ∧
      m.request_seq = nd.c_request_seq)
    (hty0 : m0.msg_type = MsgType.TRY_OK)
    (hq0 : m0.request_seq = nd.c_request_seq) :
    runMsgs nd f ms = runMsgs nd f (List.replicate ms.length m0) ∧
    ((2 : Int) * nd.c_votes ≤ nd.n →
      (2 : Int) * (nd.c_votes + ms.length) > nd.n →
      ∃ p, OutMsg.broadcastMsg p ∈ (runMsgs nd f ms).2 ∧
        p.msg_type = MsgType.PROPOSE) ∧
    (∀ m' : Message, m'.msg_type = MsgType.PROPOSE_ACK →
      m'.request_seq = nd.c_request_seq →
      (nd.receive_message m' f).node.c_votes = nd.c_votes + 1) := by
  refine ⟨runMsgs_dup_eq nd.c_request_seq m0 hty0 hq0 ms nd f hs hall,
    fun hle hgt => runMsgs_crosses ms nd f hs hall hle hgt,
    fun m' h1 h2 => ?_⟩
  simp only [Node.receive_message, h1, h2, bne_self_eq_false, Bool.false_eq_true,
    if_false]
  split <;> rfl

/-- Witness for C10: three distinct replies for round 0 behave exactly like
three copies of the first one, and they cross the majority for `n = 3`,
broadcasting a PROPOSE. -/
theorem c10_witness :
    runMsgs ndC10 10 [mOkA, mOkB, mOkC] =
      runMsgs ndC10 10 (List.replicate 3 mOkA) ∧
    ∃ p, OutMsg.broadcastMsg p ∈ (runMsgs ndC10 10 [mOkA, mOkB, mOkC]).2 ∧
      p.msg_type = MsgType.PROPOSE := by
  have h := c10_votes_per_message ndC10 [mOkA, mOkB, mOkC] mOkA 10 (by decide)
    (by decide) (by decide) (by decide)
  exact ⟨h.1, h.2.1 (by decide) (by decide)⟩
